import Mathlib

/-!
Shallow embedding of the fitness-eval-app rating engine and progress engine.

Sources embedded here:
- `backend/app/logic.py`: `get_age_bracket`, `get_rating`, `classify_bmi`,
  `classify_whr`, `calculate_single_test`, `_compute_bmi`, `_compute_whr`,
  `calculate_all_tests`.
- `backend/app/client_service.py` / `backend/app/db_service.py`:
  `compute_progress` (the two copies are line-for-line the same algorithm;
  one embedding covers both).
- `compute_body_fat_pct` (imported from `app.logic` by `db_service.py` but not
  present in the provided sources) is modelled from the spec, see its doc
  comment.

Modelling conventions: Python floats become `ℚ` (exact arithmetic on the
decimal literals of the source); Python `round(x, n)` becomes `pyRound`
(round-half-to-even, as Python's `round`); `raise ValueError(...)` becomes
`Except CalcError` with a structured error that carries exactly the data the
source interpolates into the message; Python `Optional[float]` becomes
`Option ℚ` and Python truthiness of such a field becomes `isTruthy`
(`None` and `0.0` are falsy); the norms directory read by `load_norms`
becomes an abstract store `NormsStore : String → Option Norms`.
-/

namespace FitnessEval

/-- The closed two-value gender enumeration (`Literal["male", "female"]` in
`models.py`). -/
inductive Gender where
  | male
  | female
deriving DecidableEq, Repr

/-- The five rating tiers, in the descending order of `_RATING_ORDER` in
`logic.py` (`["excellent", "very_good", "good", "fair", "poor"]`). -/
inductive Tier where
  | excellent
  | very_good
  | good
  | fair
  | poor
deriving DecidableEq, Repr

/-- `_RATING_DISPLAY` from `logic.py`: tier key to display string. -/
def ratingDisplay : Tier → String
  | .excellent => "Excellent"
  | .very_good => "Very Good"
  | .good => "Good"
  | .fair => "Fair"
  | .poor => "Poor"

/-- A five-tier threshold table: the `thresholds: dict[str, float]` consumed by
`get_rating`, with the five keys it looks up. -/
structure Thresholds where
  excellent : ℚ
  very_good : ℚ
  good : ℚ
  fair : ℚ
  poor : ℚ
deriving DecidableEq, Repr

/-- Dictionary lookup `thresholds[tier]` for the five tier keys. -/
def Thresholds.tierValue (t : Thresholds) : Tier → ℚ
  | .excellent => t.excellent
  | .very_good => t.very_good
  | .good => t.good
  | .fair => t.fair
  | .poor => t.poor

/-- `get_rating` from `logic.py`. The source iterates `_RATING_ORDER`
top-down and returns the display string of the first tier whose condition
holds (`value <= threshold` when inverted, `value >= threshold` otherwise),
falling back to `"Poor"`; the five-iteration loop is unrolled here. -/
def get_rating (value : ℚ) (thresholds : Thresholds) (inverted : Bool) : String :=
  if inverted then
    if value ≤ thresholds.excellent then ratingDisplay .excellent
    else if value ≤ thresholds.very_good then ratingDisplay .very_good
    else if value ≤ thresholds.good then ratingDisplay .good
    else if value ≤ thresholds.fair then ratingDisplay .fair
    else if value ≤ thresholds.poor then ratingDisplay .poor
    else ratingDisplay .poor
  else
    if thresholds.excellent ≤ value then ratingDisplay .excellent
    else if thresholds.very_good ≤ value then ratingDisplay .very_good
    else if thresholds.good ≤ value then ratingDisplay .good
    else if thresholds.fair ≤ value then ratingDisplay .fair
    else if thresholds.poor ≤ value then ratingDisplay .poor
    else ratingDisplay .poor

/-- `get_age_bracket` from `logic.py`. -/
def get_age_bracket (age : ℤ) : String :=
  if age < 30 then "20-29"
  else if age < 40 then "30-39"
  else if age < 50 then "40-49"
  else if age < 60 then "50-59"
  else "60-69"

/-- `classify_bmi` from `logic.py`. -/
def classify_bmi (bmi : ℚ) : String :=
  if bmi < 18.5 then "Poor"
  else if bmi < 23.0 then "Excellent"
  else if bmi < 25.0 then "Very Good"
  else if bmi < 27.5 then "Good"
  else if bmi < 30.0 then "Fair"
  else "Poor"

/-- `classify_whr` from `logic.py`. -/
def classify_whr (whr : ℚ) (gender : Gender) : String :=
  match gender with
  | .male =>
    if whr < 0.85 then "Excellent"
    else if whr < 0.90 then "Very Good"
    else if whr < 0.95 then "Good"
    else if whr < 1.00 then "Fair"
    else "Poor"
  | .female =>
    if whr < 0.75 then "Excellent"
    else if whr < 0.80 then "Very Good"
    else if whr < 0.85 then "Good"
    else if whr < 0.90 then "Fair"
    else "Poor"

/-- Python `round(x)` to an integer: round half to even (banker's rounding). -/
def pyRoundInt (x : ℚ) : ℤ :=
  let f := Rat.floor x
  let r := x - f
  if r < 1/2 then f
  else if 1/2 < r then f + 1
  else if f % 2 = 0 then f else f + 1

/-- Python `round(x, ndigits)`. -/
def pyRound (x : ℚ) (ndigits : ℕ) : ℚ :=
  (pyRoundInt (x * 10 ^ ndigits) : ℚ) / 10 ^ ndigits

/-- `ClientProfile` from `models.py` (the fields the engine consumes; the
optional body measurements default to `none` as in the source). -/
structure ClientProfile where
  name : String
  age : ℤ
  gender : Gender
  goals : List String := []
  notes : Option String := none
  height_cm : Option ℚ := none
  weight_kg : Option ℚ := none
  waist_cm : Option ℚ := none
  hip_cm : Option ℚ := none
  neck_cm : Option ℚ := none
deriving DecidableEq, Repr

/-- Python truthiness of an `Optional[float]` field: `None` and `0.0` are
falsy, every other value truthy (the `if input.client.height_cm and ...`
guards in `calculate_all_tests`). -/
def isTruthy : Option ℚ → Bool
  | none => false
  | some x => x ≠ 0

/-- `MetricResult` from `models.py`. -/
structure MetricResult where
  test_name : String
  raw_value : ℚ
  unit : String
  rating : String
  percentile : Option ℚ := none
  category : String
  description : String
  thresholds : Option Thresholds := none
  inverted : Bool := false
deriving DecidableEq, Repr

/-- `AssessmentInput` from `models.py`; the `tests` dict is embedded as an
association list in insertion order (Python dicts preserve it). -/
structure AssessmentInput where
  client : ClientProfile
  tests : List (String × ℚ)

/-- Norms JSON for one test, as consumed by `calculate_single_test`:
`test_name`, `unit`, `category`, optional `inverted` flag, and the
`norms` table keyed by gender then age bracket (dict `.get` lookups
become `Option`-valued functions). -/
structure Norms where
  test_name : String
  unit : String
  category : String
  inverted : Bool := false
  norms : Gender → Option (String → Option Thresholds)

/-- The norms directory: `load_norms` finds a JSON file per test id, or
raises. -/
def NormsStore : Type := String → Option Norms

/-- The `ValueError`s of `logic.py`, structured with exactly the data each
message interpolates: `load_norms` raises `"No normative data found for
test: '{test_id}'"`; `calculate_single_test` raises `"No norms for gender
'{gender}' in test '{test_id}'"` and `"No norms for age bracket '{bracket}'
in test '{test_id}' ({gender})"`. -/
inductive CalcError where
  | noNorms (test_id : String)
  | noGenderNorms (gender : Gender) (test_id : String)
  | noBracketNorms (bracket : String) (test_id : String) (gender : Gender)
deriving DecidableEq, Repr

/-- The test id each `CalcError` message identifies. -/
def CalcError.testId : CalcError → String
  | .noNorms tid => tid
  | .noGenderNorms _ tid => tid
  | .noBracketNorms _ tid _ => tid

/-- `load_norms` from `logic.py`: look the test id up in the norms store,
raising `ValueError` when no norms file exists. -/
def load_norms (store : NormsStore) (test_id : String) : Except CalcError Norms :=
  match store test_id with
  | none => .error (.noNorms test_id)
  | some n => .ok n

/-- Render a gender as the string the source interpolates into messages. -/
def genderStr : Gender → String
  | .male => "male"
  | .female => "female"

/-- `calculate_single_test` from `logic.py`; a raised `ValueError` (from
`load_norms` or the two lookup checks) propagates as the `.error` branch. -/
def calculate_single_test (store : NormsStore) (test_id : String) (value : ℚ)
    (age : ℤ) (gender : Gender) : Except CalcError MetricResult :=
  match load_norms store test_id with
  | .error e => .error e
  | .ok norms =>
  let bracket := get_age_bracket age
  let inverted := norms.inverted
  match norms.norms gender with
  | none => .error (.noGenderNorms gender test_id)
  | some gender_norms =>
    match gender_norms bracket with
    | none => .error (.noBracketNorms bracket test_id gender)
    | some thresholds =>
      let rating := get_rating value thresholds inverted
      let tn := norms.test_name
      let u := norms.unit
      .ok { test_name := tn
            raw_value := value
            unit := u
            rating := rating
            category := norms.category
            description := s!"{tn}: {value} {u} — {rating}"
            thresholds := some thresholds
            inverted := inverted }

/-- The BMI branch of `logic.py` (`_compute_bmi` in the source): BMI from
height and weight, classified by `classify_bmi` on the unrounded value, then
rounded to one decimal for storage. `Option.getD 0` stands for the source's
unchecked attribute access (callers guard both fields truthy first). -/
def compute_bmi (client : ClientProfile) : MetricResult :=
  let height_m := client.height_cm.getD 0 / 100
  let bmi := client.weight_kg.getD 0 / height_m ^ 2
  let rating := classify_bmi bmi
  let bmi_rounded := pyRound bmi 1
  let bmi_thresholds : Thresholds :=
    { excellent := 23.0, very_good := 25.0, good := 27.5, fair := 30.0, poor := 50.0 }
  { test_name := "Body Mass Index (BMI)"
    raw_value := bmi_rounded
    unit := "kg/m²"
    rating := rating
    category := "body_comp"
    description := s!"BMI: {bmi_rounded} kg/m² — {rating}"
    thresholds := some bmi_thresholds
    inverted := true }

/-- The WHR branch of `logic.py` (`_compute_whr` in the source): waist/hip
ratio, classified by `classify_whr` on the unrounded value, then rounded to
three decimals for storage. -/
def compute_whr (client : ClientProfile) : MetricResult :=
  let whr := client.waist_cm.getD 0 / client.hip_cm.getD 0
  let rating := classify_whr whr client.gender
  let whr_rounded := pyRound whr 3
  let whr_thresholds : Thresholds :=
    match client.gender with
    | .male =>
      { excellent := 0.85, very_good := 0.90, good := 0.95, fair := 1.00, poor := 1.50 }
    | .female =>
      { excellent := 0.75, very_good := 0.80, good := 0.85, fair := 0.90, poor := 1.50 }
  { test_name := "Waist-to-Hip Ratio"
    raw_value := whr_rounded
    unit := "ratio"
    rating := rating
    category := "body_comp"
    description := s!"Waist-to-Hip Ratio: {whr_rounded} — {rating}"
    thresholds := some whr_thresholds
    inverted := true }

/-- The `for test_id, value in input.tests.items()` loop of
`calculate_all_tests`: evaluate each submitted test in order; a raised
`ValueError` propagates, discarding every result. -/
def calcSubmittedTests (store : NormsStore) (client : ClientProfile) :
    List (String × ℚ) → Except CalcError (List MetricResult)
  | [] => .ok []
  | (test_id, value) :: rest =>
    match calculate_single_test store test_id value client.age client.gender with
    | .error e => .error e
    | .ok r =>
      match calcSubmittedTests store client rest with
      | .error e => .error e
      | .ok rs => .ok (r :: rs)

/-- `calculate_all_tests` from `logic.py`: all submitted tests, then BMI
appended when height and weight are truthy, then WHR appended when waist and
hip are truthy. -/
def calculate_all_tests (store : NormsStore) (input : AssessmentInput) :
    Except CalcError (List MetricResult) :=
  match calcSubmittedTests store input.client input.tests with
  | .error e => .error e
  | .ok results =>
    let results :=
      if isTruthy input.client.height_cm && isTruthy input.client.weight_kg then
        results ++ [compute_bmi input.client]
      else results
    let results :=
      if isTruthy input.client.waist_cm && isTruthy input.client.hip_cm then
        results ++ [compute_whr input.client]
      else results
    .ok results

/-- `ProgressDelta` from `models.py`; `unit` defaults to the empty string and
`compute_progress` never sets it. -/
structure ProgressDelta where
  test_name : String
  previous_value : ℚ
  current_value : ℚ
  previous_rating : String
  current_rating : String
  direction : String
  delta : ℚ
  unit : String := ""
deriving DecidableEq, Repr

/-- The `_RATING_ORDER` list shared by `client_service.py` and
`db_service.py` (ascending display-string order). -/
def RATING_ORDER : List String := ["Poor", "Fair", "Good", "Very Good", "Excellent"]

/-- `_RATING_ORDER.index(r) if r in _RATING_ORDER else -1`, unfolded over the
five-element list. -/
def ratingIndex (r : String) : ℤ :=
  if r = "Poor" then 0
  else if r = "Fair" then 1
  else if r = "Good" then 2
  else if r = "Very Good" then 3
  else if r = "Excellent" then 4
  else -1

/-- The dict comprehension `{r.test_name: r for r in previous}` followed by
`.get(name)`: later entries overwrite earlier ones with the same name,
exactly as a left fold. -/
def lookupByName (rs : List MetricResult) (name : String) : Option MetricResult :=
  rs.foldl (fun acc r => if r.test_name = name then some r else acc) none

/-- `compute_progress` from `client_service.py` (and, identically, from
`db_service.py`): for each current result with a matching previous result,
emit a `ProgressDelta` whose direction compares the rating ordinals; current
results with no previous counterpart are skipped (the loop's `continue`). -/
def compute_progress (current previous : List MetricResult) : List ProgressDelta :=
  current.filterMap fun curr =>
    match lookupByName previous curr.test_name with
    | none => none
    | some prev =>
      let delta_val := pyRound (curr.raw_value - prev.raw_value) 2
      let curr_idx := ratingIndex curr.rating
      let prev_idx := ratingIndex prev.rating
      let direction :=
        if curr_idx > prev_idx then "improved"
        else if curr_idx < prev_idx then "declined"
        else "unchanged"
      some { test_name := curr.test_name
             previous_value := prev.raw_value
             current_value := curr.raw_value
             previous_rating := prev.rating
             current_rating := curr.rating
             direction := direction
             delta := delta_val }

/-- Modelled from the spec: `compute_body_fat_pct` is imported from
`app.logic` by `db_service.py`, but its body is not among the provided
sources. Per spec §4.4 it is the US Navy closed-form body-fat formula over
height, waist, neck and (for females only) hip circumference, using log10
terms; it returns `None` when a required measurement is missing or a
logarithm argument would be non-positive. Since log10 takes irrational
values, it is abstracted as a function parameter `lg`; the standard Navy
coefficients fill in the closed form. -/
def compute_body_fat_pct (lg : ℚ → ℚ) (gender : Gender)
    (height_cm waist_cm neck_cm hip_cm : Option ℚ) : Option ℚ :=
  match gender with
  | .male =>
    match height_cm, waist_cm, neck_cm with
    | some h, some w, some n =>
      let a := w - n
      if a ≤ 0 ∨ h ≤ 0 then none
      else some (495 / (1.0324 - 0.19077 * lg a + 0.15456 * lg h) - 450)
    | _, _, _ => none
  | .female =>
    match height_cm, waist_cm, neck_cm, hip_cm with
    | some h, some w, some n, some hp =>
      let a := w + hp - n
      if a ≤ 0 ∨ h ≤ 0 then none
      else some (495 / (1.29579 - 0.35004 * lg a + 0.22100 * lg h) - 450)
    | _, _, _, _ => none

/-- Rank of a rating display string in the order poor < fair < good <
very_good < excellent (used to state monotonicity of `get_rating`). -/
def ratingRank (r : String) : ℤ :=
  if r = "Excellent" then 4
  else if r = "Very Good" then 3
  else if r = "Good" then 2
  else if r = "Fair" then 1
  else 0

/-- Strict monotonicity of a threshold table in the standard direction:
strictly decreasing from excellent to poor. -/
def StrictDesc (t : Thresholds) : Prop :=
  t.poor < t.fair ∧ t.fair < t.good ∧ t.good < t.very_good ∧ t.very_good < t.excellent

/-- Strict monotonicity of a threshold table in the inverted direction:
strictly increasing from excellent to poor. -/
def StrictAsc (t : Thresholds) : Prop :=
  t.excellent < t.very_good ∧ t.very_good < t.good ∧ t.good < t.fair ∧ t.fair < t.poor

instance (t : Thresholds) : Decidable (StrictDesc t) := by
  unfold StrictDesc; infer_instance

instance (t : Thresholds) : Decidable (StrictAsc t) := by
  unfold StrictAsc; infer_instance

/-! Concrete sample data used by witness theorems. -/

/-- A current push-up result rated "Good" with raw value 24. -/
def currGoodPushup : MetricResult :=
  { test_name := "Push-up Test", raw_value := 24, unit := "reps", rating := "Good"
    category := "strength", description := "Push-up Test: 24 reps — Good" }

/-- A previous push-up result rated "Good" with raw value 25 (higher raw,
same tier). -/
def prevGoodPushup : MetricResult :=
  { test_name := "Push-up Test", raw_value := 25, unit := "reps", rating := "Good"
    category := "strength", description := "Push-up Test: 25 reps — Good" }

/-- A client whose exact BMI is 91.84 / 2² = 22.96, which rounds to 23.0:
the unrounded value classifies "Excellent" (< 23.0) while the rounded stored
value classifies "Very Good" (≥ 23.0). -/
def clientBmiBoundary : ClientProfile :=
  { name := "boundary", age := 30, gender := .male
    height_cm := some 200, weight_kg := some (2296/25) }

/-- A client with height 175, weight 70, waist 87, hip 100. -/
def clientFullMeasures : ClientProfile :=
  { name := "full", age := 35, gender := .male
    height_cm := some 175, weight_kg := some 70
    waist_cm := some 87, hip_cm := some 100 }

/-- A norms store with data for `"pushup"` only (male 30-39 style table for
every gender and bracket). -/
def pushupOnlyStore : NormsStore := fun tid =>
  if tid = "pushup" then
    some { test_name := "Push-up Test", unit := "reps", category := "strength"
           inverted := false
           norms := fun _ => some fun _ => some ⟨30, 22, 17, 12, 11⟩ }
  else none

/-- A batch that submits a valid test and an unknown one. -/
def inputUnknownTest : AssessmentInput :=
  { client := { name := "c", age := 35, gender := .male }
    tests := [("pushup", 25), ("mystery", 10)] }

/-! Theorems. -/

/-- C3 counterexample: at the spec's worked ratio 0.87, `classify_whr` for
`"female"` returns `"Fair"` (since 0.85 ≤ 0.87 < 0.90), not the `"Poor"` the
claim states. -/
theorem classify_whr_female_087_not_poor :
    classify_whr (87/100) Gender.female = "Fair" ∧
    classify_whr (87/100) Gender.female ≠ "Poor" := by
  constructor
  · norm_num [classify_whr]
  · norm_num [classify_whr]
    decide

/-- C3 (amended): for the ratio 0.87, `classify_whr` returns `"Very Good"`
for male and `"Fair"` for female. -/
theorem classify_whr_gender_sensitivity_087 :
    classify_whr (87/100) Gender.male = "Very Good" ∧
    classify_whr (87/100) Gender.female = "Fair" := by
  constructor <;> norm_num [classify_whr]

/-- C7: `get_age_bracket` is total over all integer ages, always returning
one of the five bracket strings; every age below 20 resolves to the same
bracket as age 20, and every age at or above 70 resolves to the highest
bracket "60-69". -/
theorem get_age_bracket_total_clamping (age : ℤ) :
    get_age_bracket age ∈ (["20-29", "30-39", "40-49", "50-59", "60-69"] : List String) ∧
    (age < 20 → get_age_bracket age = get_age_bracket 20) ∧
    (70 ≤ age → get_age_bracket age = "60-69") := by
  refine ⟨?_, ?_, ?_⟩
  · unfold get_age_bracket
    split_ifs <;> simp
  · intro h
    have h30 : age < 30 := by omega
    simp [get_age_bracket, h30]
  · intro h
    unfold get_age_bracket
    split_ifs <;> first | rfl | omega

/-- Witness for C7 at ages 17 and 200. -/
theorem get_age_bracket_total_clamping_witness :
    get_age_bracket 17 = get_age_bracket 20 ∧ get_age_bracket 200 = "60-69" :=
  ⟨(get_age_bracket_total_clamping 17).2.1 (by norm_num),
   (get_age_bracket_total_clamping 200).2.2 (by norm_num)⟩

/-- C4: for any five-tier table that is strictly monotonic in the direction
matching the `inverted` flag, a value exactly at a tier's threshold earns
that tier's display label, in both directions. -/
theorem get_rating_boundary_exact (T : Thresholds) (t : Tier) :
    (StrictDesc T → get_rating (T.tierValue t) T false = ratingDisplay t) ∧
    (StrictAsc T → get_rating (T.tierValue t) T true = ratingDisplay t) := by
  constructor
  · rintro ⟨h1, h2, h3, h4⟩
    cases t <;>
      simp only [get_rating, Thresholds.tierValue, Bool.false_eq_true, if_false] <;>
      split_ifs <;> first | rfl | (exfalso; linarith)
  · rintro ⟨h1, h2, h3, h4⟩
    cases t <;>
      simp only [get_rating, Thresholds.tierValue, if_true] <;>
      split_ifs <;> first | rfl | (exfalso; linarith)

/-- Witness for C4 on a descending table at tier good and an ascending table
at tier fair. -/
theorem get_rating_boundary_exact_witness :
    get_rating ((⟨30, 22, 17, 12, 11⟩ : Thresholds).tierValue Tier.good)
        ⟨30, 22, 17, 12, 11⟩ false = "Good" ∧
    get_rating ((⟨85/100, 90/100, 95/100, 1, 3/2⟩ : Thresholds).tierValue Tier.fair)
        ⟨85/100, 90/100, 95/100, 1, 3/2⟩ true = "Fair" :=
  ⟨(get_rating_boundary_exact ⟨30, 22, 17, 12, 11⟩ Tier.good).1
      (by norm_num [StrictDesc]),
   (get_rating_boundary_exact ⟨85/100, 90/100, 95/100, 1, 3/2⟩ Tier.fair).2
      (by norm_num [StrictAsc])⟩

/-- C5: `get_rating` is monotonic in the raw value: with a table monotonic in
the direction matching the flag, a strictly larger value rates at least as
high when not inverted, and at most as high when inverted, in the rank order
poor < fair < good < very_good < excellent. -/
theorem get_rating_monotone (T : Thresholds) (v1 v2 : ℚ) :
    (StrictDesc T → v1 > v2 →
      ratingRank (get_rating v1 T false) ≥ ratingRank (get_rating v2 T false)) ∧
    (StrictAsc T → v1 > v2 →
      ratingRank (get_rating v1 T true) ≤ ratingRank (get_rating v2 T true)) := by
  constructor
  · rintro _ hlt
    simp only [get_rating, Bool.false_eq_true, if_false]
    split_ifs <;> simp [ratingRank, ratingDisplay] <;> linarith
  · rintro _ hlt
    simp only [get_rating, if_true]
    split_ifs <;> simp [ratingRank, ratingDisplay] <;> linarith

/-- Witness for C5: 25 vs 13 on a descending table, 100 vs 88 on an
ascending table. -/
theorem get_rating_monotone_witness :
    ratingRank (get_rating 25 (⟨30, 22, 17, 12, 11⟩ : Thresholds) false) ≥
      ratingRank (get_rating 13 ⟨30, 22, 17, 12, 11⟩ false) ∧
    ratingRank (get_rating 100 (⟨85, 90, 95, 100, 120⟩ : Thresholds) true) ≤
      ratingRank (get_rating 88 ⟨85, 90, 95, 100, 120⟩ true) :=
  ⟨(get_rating_monotone ⟨30, 22, 17, 12, 11⟩ 25 13).1 (by norm_num [StrictDesc]) (by norm_num),
   (get_rating_monotone ⟨85, 90, 95, 100, 120⟩ 100 88).2 (by norm_num [StrictAsc]) (by norm_num)⟩

/-- C1: in every output of `compute_progress`, the direction is a function of
the ordinal indices of the two rating labels alone (higher current index ⇒
"improved", lower ⇒ "declined", equal ⇒ "unchanged"); in particular, equal
rating labels give "unchanged" regardless of the raw values and the sign of
the delta. -/
theorem compute_progress_direction_ordinal (current previous : List MetricResult)
    (d : ProgressDelta) (hd : d ∈ compute_progress current previous) :
    d.direction =
      (if ratingIndex d.current_rating > ratingIndex d.previous_rating then "improved"
       else if ratingIndex d.current_rating < ratingIndex d.previous_rating then "declined"
       else "unchanged") ∧
    (d.current_rating = d.previous_rating → d.direction = "unchanged") := by
  rw [compute_progress, List.mem_filterMap] at hd
  obtain ⟨curr, _, heq⟩ := hd
  rcases hprev : lookupByName previous curr.test_name with _ | prev
  · rw [hprev] at heq
    simp at heq
  · rw [hprev] at heq
    simp only [Option.some.injEq] at heq
    subst heq
    constructor
    · rfl
    · intro h
      have hr : curr.rating = prev.rating := h
      simp [hr]

/-- Witness for C1: previous raw 25 rated "Good", current raw 24 rated
"Good" — delta is negative, direction is "unchanged". -/
theorem compute_progress_direction_ordinal_witness :
    ({ test_name := "Push-up Test", previous_value := 25, current_value := 24
       previous_rating := "Good", current_rating := "Good"
       direction := "unchanged", delta := -1 } : ProgressDelta) ∈
      compute_progress [currGoodPushup] [prevGoodPushup] ∧
    ({ test_name := "Push-up Test", previous_value := 25, current_value := 24
       previous_rating := "Good", current_rating := "Good"
       direction := "unchanged", delta := -1 } : ProgressDelta).direction = "unchanged" := by
  have hmem :
      ({ test_name := "Push-up Test", previous_value := 25, current_value := 24
         previous_rating := "Good", current_rating := "Good"
         direction := "unchanged", delta := -1 } : ProgressDelta) ∈
        compute_progress [currGoodPushup] [prevGoodPushup] := by
    norm_num [compute_progress, lookupByName, currGoodPushup, prevGoodPushup,
      ratingIndex, pyRound, pyRoundInt, Rat.floor]
  exact ⟨hmem,
    (compute_progress_direction_ordinal [currGoodPushup] [prevGoodPushup] _ hmem).2 rfl⟩

/-- C10: every `ProgressDelta` produced by `compute_progress` has an empty
`unit` — the construction never copies the unit of either `MetricResult`,
so the field keeps its empty-string default. -/
theorem compute_progress_unit_always_empty (current previous : List MetricResult)
    (d : ProgressDelta) (hd : d ∈ compute_progress current previous) :
    d.unit = "" := by
  rw [compute_progress, List.mem_filterMap] at hd
  obtain ⟨curr, _, heq⟩ := hd
  rcases hprev : lookupByName previous curr.test_name with _ | prev
  · rw [hprev] at heq
    simp at heq
  · rw [hprev] at heq
    simp only [Option.some.injEq] at heq
    subst heq
    rfl

/-- Witness for C10: both inputs carry the nonempty unit "reps", yet the
delta's unit is empty. -/
theorem compute_progress_unit_always_empty_witness :
    currGoodPushup.unit = "reps" ∧ prevGoodPushup.unit = "reps" ∧
    ({ test_name := "Push-up Test", previous_value := 25, current_value := 24
       previous_rating := "Good", current_rating := "Good"
       direction := "unchanged", delta := -1 } : ProgressDelta).unit = "" :=
  ⟨rfl, rfl,
    compute_progress_unit_always_empty [currGoodPushup] [prevGoodPushup] _
      (by norm_num [compute_progress, lookupByName, currGoodPushup, prevGoodPushup,
        ratingIndex, pyRound, pyRoundInt, Rat.floor])⟩

/-- C2 (amended): the BMI result's rating is the classification of the
unrounded BMI, while the stored raw value is the BMI rounded to 1 decimal;
likewise the WHR result's rating is the gender-specific classification of
the unrounded ratio, while the stored raw value is the ratio rounded to 3
decimals — classification happens before rounding. -/
theorem compute_bmi_whr_classify_unrounded (client : ClientProfile) :
    (∀ hv wv, client.height_cm = some hv → client.weight_kg = some wv →
      (compute_bmi client).rating = classify_bmi (wv / (hv / 100) ^ 2) ∧
      (compute_bmi client).raw_value = pyRound (wv / (hv / 100) ^ 2) 1) ∧
    (∀ wv hpv, client.waist_cm = some wv → client.hip_cm = some hpv →
      (compute_whr client).rating = classify_whr (wv / hpv) client.gender ∧
      (compute_whr client).raw_value = pyRound (wv / hpv) 3) := by
  constructor
  · intro hv wv h1 h2
    rw [compute_bmi, h1, h2]
    exact ⟨rfl, rfl⟩
  · intro wv hpv h1 h2
    rw [compute_whr, h1, h2]
    exact ⟨rfl, rfl⟩

/-- Witness for C2's amended statement on a client with height 175, weight
70, waist 87, hip 100. -/
theorem compute_bmi_whr_classify_unrounded_witness :
    (compute_bmi clientFullMeasures).rating = classify_bmi (70 / ((175 : ℚ) / 100) ^ 2) ∧
    (compute_whr clientFullMeasures).raw_value = pyRound ((87 : ℚ) / 100) 3 :=
  ⟨((compute_bmi_whr_classify_unrounded clientFullMeasures).1 175 70 rfl rfl).1,
   ((compute_bmi_whr_classify_unrounded clientFullMeasures).2 87 100 rfl rfl).2⟩

/-- C2 counterexample: a client with height 200 cm and weight 91.84 kg has
exact BMI 22.96, classified "Excellent" before rounding; the stored raw
value is the rounded 23.0, which classifies "Very Good" — so the stored
rating is not the classification of the stored raw value. -/
theorem compute_bmi_rating_mismatches_rounded_value :
    isTruthy clientBmiBoundary.height_cm = true ∧
    isTruthy clientBmiBoundary.weight_kg = true ∧
    (compute_bmi clientBmiBoundary).raw_value = 23 ∧
    (compute_bmi clientBmiBoundary).rating = "Excellent" ∧
    classify_bmi ((compute_bmi clientBmiBoundary).raw_value) = "Very Good" := by
  refine ⟨by norm_num [isTruthy, clientBmiBoundary], by norm_num [isTruthy, clientBmiBoundary],
    ?_, ?_, ?_⟩ <;>
    norm_num [compute_bmi, clientBmiBoundary, classify_bmi, pyRound, pyRoundInt, Rat.floor]

/-- C9: the body-fat computation is total with an `Option` result — it
returns `none` (never an exception) when a required measurement is missing
(height, waist, neck always; hip additionally for females) or when a
logarithm argument would be non-positive. -/
theorem compute_body_fat_pct_none_on_invalid (lg : ℚ → ℚ) (g : Gender)
    (h w n hp : Option ℚ) :
    ((h = none ∨ w = none ∨ n = none) → compute_body_fat_pct lg g h w n hp = none) ∧
    (g = Gender.female → hp = none → compute_body_fat_pct lg g h w n hp = none) ∧
    (∀ hv wv nv, h = some hv → w = some wv → n = some nv →
      (g = Gender.male → wv - nv ≤ 0 ∨ hv ≤ 0 →
        compute_body_fat_pct lg g h w n hp = none) ∧
      (∀ hpv, g = Gender.female → hp = some hpv → wv + hpv - nv ≤ 0 ∨ hv ≤ 0 →
        compute_body_fat_pct lg g h w n hp = none)) := by
  refine ⟨?_, ?_, ?_⟩
  · intro hmiss
    cases g <;> cases h <;> cases w <;> cases n <;> cases hp <;>
      first
        | rfl
        | (exfalso; rcases hmiss with h1 | h1 | h1 <;> cases h1)
  · rintro rfl rfl
    cases h <;> cases w <;> cases n <;> rfl
  · rintro hv wv nv rfl rfl rfl
    constructor
    · rintro rfl harg
      simp only [compute_body_fat_pct]
      rw [if_pos harg]
    · rintro hpv rfl rfl harg
      simp only [compute_body_fat_pct]
      rw [if_pos harg]

/-- Witness for C9: missing height for a male, missing hip for a female, and
a non-positive log argument (waist 40 ≤ neck 50) each yield `none`. -/
theorem compute_body_fat_pct_none_witness :
    compute_body_fat_pct (fun _ => 0) Gender.male none (some 100) (some 40) none = none ∧
    compute_body_fat_pct (fun _ => 0) Gender.female (some 170) (some 80) (some 35) none = none ∧
    compute_body_fat_pct (fun _ => 0) Gender.male (some 180) (some 40) (some 50) none = none :=
  ⟨(compute_body_fat_pct_none_on_invalid (fun _ => 0) Gender.male none (some 100)
      (some 40) none).1 (Or.inl rfl),
   (compute_body_fat_pct_none_on_invalid (fun _ => 0) Gender.female (some 170) (some 80)
      (some 35) none).2.1 rfl rfl,
   ((compute_body_fat_pct_none_on_invalid (fun _ => 0) Gender.male (some 180) (some 40)
      (some 50) none).2.2 180 40 50 rfl rfl rfl).1 rfl (by norm_num)⟩

/-- Helper for C6: an error raised inside `calculate_single_test` always
carries the test id the call was made for. -/
theorem calculate_single_test_error_carries_test_id (store : NormsStore)
    (tid : String) (v : ℚ) (age : ℤ) (g : Gender) (e : CalcError)
    (hc : calculate_single_test store tid v age g = .error e) :
    e.testId = tid := by
  rw [calculate_single_test] at hc
  split at hc
  · rename_i e1 heq
    injection hc with hc
    subst hc
    rw [load_norms] at heq
    rcases hs : store tid with _ | norms <;> rw [hs] at heq
    · cases heq
      rfl
    · cases heq
  · split at hc
    · injection hc with hc
      subst hc
      rfl
    · dsimp only at hc
      split at hc
      · injection hc with hc
        subst hc
        rfl
      · cases hc

/-- Helper for C6: the submitted-tests loop fails fast — if any submitted
pair fails on its own, the loop returns an error whose test id names a
submitted, individually failing test, and no result list is produced. -/
theorem calcSubmittedTests_fail_fast (store : NormsStore) (client : ClientProfile) :
    ∀ (l : List (String × ℚ)) (tid : String) (v : ℚ), (tid, v) ∈ l →
      (∃ e0, calculate_single_test store tid v client.age client.gender = .error e0) →
      ∃ e, calcSubmittedTests store client l = .error e ∧
        ∃ v2, (CalcError.testId e, v2) ∈ l ∧
          calculate_single_test store (CalcError.testId e) v2 client.age client.gender
            = .error e := by
  intro l
  induction l with
  | nil => intro tid v hmem _; cases hmem
  | cons head rest ih =>
    obtain ⟨t, w⟩ := head
    intro tid v hmem hfail
    rcases hhead : calculate_single_test store t w client.age client.gender with e | r
    · refine ⟨e, ?_, w, ?_, ?_⟩
      · rw [calcSubmittedTests, hhead]
      · rw [calculate_single_test_error_carries_test_id store t w client.age
          client.gender e hhead]
        exact List.mem_cons_self _ _
      · rw [calculate_single_test_error_carries_test_id store t w client.age
          client.gender e hhead]
        exact hhead
    · rcases List.mem_cons.mp hmem with hhd | htl
      · obtain ⟨e0, he0⟩ := hfail
        injection hhd with h1 h2
        rw [h1, h2] at he0
        rw [he0] at hhead
        cases hhead
      · obtain ⟨e, herr, v2, hmem2, hcalc⟩ := ih tid v htl hfail
        refine ⟨e, ?_, v2, List.mem_cons_of_mem _ hmem2, hcalc⟩
        rw [calcSubmittedTests, hhead, herr]

/-- C6: if any submitted test id in the batch fails its normative-data
lookup (unknown test id, missing gender row, or missing age-bracket row),
`calculate_all_tests` returns an error — no partial result list — and the
error identifies a submitted test id that indeed fails on its own. -/
theorem calculate_all_tests_fail_fast (store : NormsStore) (input : AssessmentInput)
    (tid : String) (v : ℚ) (hmem : (tid, v) ∈ input.tests)
    (hfail : ∃ e0, calculate_single_test store tid v input.client.age
      input.client.gender = .error e0) :
    ∃ e, calculate_all_tests store input = .error e ∧
      ∃ v2, (CalcError.testId e, v2) ∈ input.tests ∧
        calculate_single_test store (CalcError.testId e) v2 input.client.age
          input.client.gender = .error e := by
  obtain ⟨e, herr, v2, hmem2, hcalc⟩ :=
    calcSubmittedTests_fail_fast store input.client input.tests tid v hmem hfail
  refine ⟨e, ?_, v2, hmem2, hcalc⟩
  rw [calculate_all_tests, herr]

/-- Witness for C6: the batch `[("pushup", 25), ("mystery", 10)]` against a
store that only knows "pushup" fails as a whole even though "pushup" alone
is valid. -/
theorem calculate_all_tests_fail_fast_witness :
    ∃ e, calculate_all_tests pushupOnlyStore inputUnknownTest = .error e ∧
      ∃ v2, (CalcError.testId e, v2) ∈ inputUnknownTest.tests ∧
        calculate_single_test pushupOnlyStore (CalcError.testId e) v2
          inputUnknownTest.client.age inputUnknownTest.client.gender = .error e :=
  calculate_all_tests_fail_fast pushupOnlyStore inputUnknownTest "mystery" 10
    (by simp [inputUnknownTest]) ⟨.noNorms "mystery", rfl⟩

/-- C8: `calculate_all_tests` maps the submitted-test results (when they all
succeed) by appending exactly one BMI result when height and weight are both
present and nonzero (truthy), then exactly one WHR result when waist and hip
are both present and nonzero; the computed metrics are never required in the
submitted tests and their absence causes no error. -/
theorem calculate_all_tests_appends_computed (store : NormsStore) (input : AssessmentInput) :
    calculate_all_tests store input =
      Except.map
        (fun base =>
          base ++
            (if isTruthy input.client.height_cm && isTruthy input.client.weight_kg then
              [compute_bmi input.client]
            else []) ++
            (if isTruthy input.client.waist_cm && isTruthy input.client.hip_cm then
              [compute_whr input.client]
            else []))
        (calcSubmittedTests store input.client input.tests) := by
  rw [calculate_all_tests]
  rcases calcSubmittedTests store input.client input.tests with e | base
  · rfl
  · simp only [Except.map]
    rcases isTruthy input.client.height_cm && isTruthy input.client.weight_kg with _ | _ <;>
      rcases isTruthy input.client.waist_cm && isTruthy input.client.hip_cm with _ | _ <;>
      simp [List.append_assoc]

end FitnessEval
